import Mathlib

/-!
Shallow embedding of the api-mid-pms integration gateway.

Conventions of the embedding:
* SQLite rows become Lean structures; `INTEGER` flags (`is_active`,
  `is_revoked`) stay `Nat`, compared against `1`/`0` exactly as the SQL
  queries do.
* Time instants are `Nat` milliseconds since the epoch; `new Date()` at the
  call site becomes an explicit `now` parameter, and
  `getExpirationDate(seconds)` becomes `now + seconds * 1000`.
* JavaScript truthiness of an optional string (absent, or present but
  empty) is modelled by `strTruthy`.
* External cryptographic primitives (bcrypt compare, JWT verification,
  HMAC-SHA256) are parameters of the functions that use them: the control
  flow around them is what the repository's code defines.
* A thrown exception is modelled by `Option`/`Except` (`none` / `.error`)
  where the source has no handler, and by the handler's result where it
  does.
-/

namespace ApiMid

/-- Truthiness of an optional JS string: `undefined` and `""` are falsy. -/
def strTruthy : Option String → Bool
  | none => false
  | some s => !(s == "")

/-- Header map of a JS object with string keys, kept in insertion order. -/
abbrev Headers := List (String × String)

/-- Assignment `obj[k] = v` on a JS object: overwrite in place or append. -/
def setHeader (hs : Headers) (k v : String) : Headers :=
  if hs.any (fun p => p.1 == k) then
    hs.map (fun p => if p.1 == k then (k, v) else p)
  else hs ++ [(k, v)]

/-- Read `obj[k]` from a JS object (first binding of the key). -/
def getHeader (hs : Headers) (k : String) : Option String :=
  hs.lookup k

/-! ## Data model: `clients` and `sessions` rows (scripts/initDatabase.ts) -/

/-- A row of the `clients` table. -/
structure OAuthClient where
  id : Nat
  client_id : String
  client_secret_hash : String
  is_active : Nat
  deriving Repr, DecidableEq

/-- A row of the `sessions` table. -/
structure OAuthSession where
  id : Nat
  client_id : Nat
  access_token : String
  refresh_token : String
  token_type : String
  expires_at : Nat
  refresh_expires_at : Nat
  is_revoked : Nat
  deriving Repr, DecidableEq

/-- The persistent store: both tables plus the sessions autoincrement
counter (`lastInsertRowid` source). -/
structure DB where
  clients : List OAuthClient
  sessions : List OAuthSession
  nextSessionId : Nat
  deriving Repr, DecidableEq

/-- Body of `POST /auth/token` and `POST /auth/refresh` success responses. -/
structure TokenResponse where
  access_token : String
  refresh_token : String
  token_type : String
  expires_in : Nat
  deriving Repr, DecidableEq

namespace AuthService

/-- Query `SELECT * FROM clients WHERE client_id = ? AND is_active = 1`. -/
def findActiveClient (db : DB) (clientId : String) : Option OAuthClient :=
  db.clients.find? (fun c => c.client_id == clientId && c.is_active == 1)

/-- Query `SELECT * FROM clients WHERE id = ?`. -/
def findClientById (db : DB) (id : Nat) : Option OAuthClient :=
  db.clients.find? (fun c => c.id == id)

/-- Query `SELECT * FROM sessions WHERE refresh_token = ? AND is_revoked = 0`. -/
def findRefreshSession (db : DB) (refreshToken : String) : Option OAuthSession :=
  db.sessions.find? (fun s => s.refresh_token == refreshToken && s.is_revoked == 0)

/-- Query `SELECT * FROM sessions WHERE access_token = ? AND is_revoked = 0`. -/
def findAccessSession (db : DB) (accessToken : String) : Option OAuthSession :=
  db.sessions.find? (fun s => s.access_token == accessToken && s.is_revoked == 0)

/-- `AuthService.authenticateClient`: active-client lookup then bcrypt
verify (`verify secret hash`); `null` on unknown id, inactive client, or
mismatched secret. -/
def authenticateClient (verify : String → String → Bool) (db : DB)
    (clientId clientSecret : String) : Option OAuthClient :=
  match findActiveClient db clientId with
  | none => none
  | some client =>
    if verify clientSecret client.client_secret_hash then some client else none

/-- `AuthService.saveSession`: `INSERT INTO sessions ...` then re-read the
inserted row.  Returns the new row and the updated store. -/
def saveSession (db : DB) (client : OAuthClient)
    (accessToken refreshToken : String) (expiresAt refreshExpiresAt : Nat) :
    OAuthSession × DB :=
  let session : OAuthSession :=
    { id := db.nextSessionId
      client_id := client.id
      access_token := accessToken
      refresh_token := refreshToken
      token_type := "Bearer"
      expires_at := expiresAt
      refresh_expires_at := refreshExpiresAt
      is_revoked := 0 }
  (session,
   { db with sessions := db.sessions ++ [session],
             nextSessionId := db.nextSessionId + 1 })

/-- `AuthService.revokeSession`: `UPDATE sessions SET is_revoked = 1 WHERE
id = ?`. -/
def revokeSession (db : DB) (sessionId : Nat) : DB :=
  { db with
    sessions := db.sessions.map
      (fun s => if s.id == sessionId then { s with is_revoked := 1 } else s) }

/-- `AuthService.createTokenResponse`: authenticate, generate a pair
(fresh random token strings become the `freshAccess`/`freshRefresh`
parameters; expiry policy `expiresIn = 3600`, refresh lifetime 24x), save
the session, and return the response. -/
def createTokenResponse (verify : String → String → Bool) (db : DB)
    (now : Nat) (clientId clientSecret freshAccess freshRefresh : String) :
    Option (TokenResponse × DB) :=
  match authenticateClient verify db clientId clientSecret with
  | none => none
  | some client =>
    let expiresIn : Nat := 3600
    let expiresAt := now + expiresIn * 1000
    let refreshExpiresAt := now + expiresIn * 24 * 1000
    let (_, db1) := saveSession db client freshAccess freshRefresh
      expiresAt refreshExpiresAt
    some ({ access_token := freshAccess
            refresh_token := freshRefresh
            token_type := "Bearer"
            expires_in := expiresIn }, db1)

/-- `AuthService.refreshAccessToken`: look up a non-revoked session by
refresh token, fail if absent, past its refresh expiry, or owned by an
inactive/unknown client; otherwise revoke the found session, generate and
persist a replacement pair, and return it. -/
def refreshAccessToken (db : DB) (now : Nat) (refreshToken : String)
    (freshAccess freshRefresh : String) : Option (TokenResponse × DB) :=
  match findRefreshSession db refreshToken with
  | none => none
  | some session =>
    if session.refresh_expires_at < now then none
    else
      match findClientById db session.client_id with
      | none => none
      | some client =>
        if client.is_active != 1 then none
        else
          let db1 := revokeSession db session.id
          let expiresIn : Nat := 3600
          let expiresAt := now + expiresIn * 1000
          let refreshExpiresAt := now + expiresIn * 24 * 1000
          let (_, db2) := saveSession db1 client freshAccess freshRefresh
            expiresAt refreshExpiresAt
          some ({ access_token := freshAccess
                  refresh_token := freshRefresh
                  token_type := "Bearer"
                  expires_in := expiresIn }, db2)

/-- `AuthService.validateAccessToken`: `verifyToken` (JWT signature and
embedded expiry, abstracted as the `jwtOk` parameter — a throw is caught
and yields `null`), then the non-revoked row lookup by access-token value,
then the stored-expiry check `expiresAt < new Date()`. -/
def validateAccessToken (jwtOk : String → Bool) (db : DB) (now : Nat)
    (accessToken : String) : Option OAuthSession :=
  if jwtOk accessToken then
    match findAccessSession db accessToken with
    | none => none
    | some session =>
      if session.expires_at < now then none else some session
  else none

/-- `AuthService.cleanupExpiredSessions`: `DELETE FROM sessions WHERE
expires_at < ?` with the current instant, returning `result.changes`. -/
def cleanupExpiredSessions (db : DB) (now : Nat) : Nat × DB :=
  let deleted := db.sessions.filter (fun s => s.expires_at < now)
  let remaining := db.sessions.filter (fun s => !(s.expires_at < now : Bool))
  (deleted.length, { db with sessions := remaining })

end AuthService

namespace AuthController

/-- Outcome of `POST /auth/revoke`: HTTP status, response message, and the
store after the call. -/
structure RevokeResult where
  status : Nat
  message : String
  db : DB
  deriving Repr, DecidableEq

/-- `AuthController.revoke`: missing token is `400 invalid_request`;
otherwise validate the token, revoke its session when one is found, and
always answer `200` with the same message. The absent-or-empty request
field is the `""` token value. -/
def revoke (jwtOk : String → Bool) (db : DB) (now : Nat) (token : String) :
    RevokeResult :=
  if token == "" then
    { status := 400, message := "invalid_request", db := db }
  else
    match AuthService.validateAccessToken jwtOk db now token with
    | some session =>
      { status := 200, message := "Token revoked successfully",
        db := AuthService.revokeSession db session.id }
    | none =>
      { status := 200, message := "Token revoked successfully", db := db }

end AuthController

/-! ## Integration configuration (src/config/integrations.ts) -/

/-- The `type` field of an auth descriptor. -/
inductive AuthKind where
  | none
  | basic
  | bearer
  | oauth2
  | api_key
  deriving Repr, DecidableEq

/-- Kind-specific credential fields; each is optional in the source. -/
structure IntegrationCredentials where
  username : Option String := Option.none
  password : Option String := Option.none
  token : Option String := Option.none
  apiKey : Option String := Option.none
  clientId : Option String := Option.none
  clientSecret : Option String := Option.none
  deriving Repr, DecidableEq

/-- The `auth` descriptor of an integration. -/
structure IntegrationAuth where
  type : AuthKind
  credentials : Option IntegrationCredentials := Option.none
  headers : Option Headers := Option.none
  deriving Repr, DecidableEq

/-- One named endpoint of an integration. -/
structure IntegrationEndpoint where
  path : String
  method : Option String := Option.none
  transformer : Option String := Option.none
  deriving Repr, DecidableEq

/-- The `webhooks` descriptor of an integration. -/
structure WebhookSettings where
  enabled : Bool
  secret : Option String := Option.none
  events : Option (List String) := Option.none
  deriving Repr, DecidableEq

/-- One integration's configuration. -/
structure IntegrationConfig where
  name : String
  enabled : Bool
  baseUrl : String
  auth : IntegrationAuth
  endpoints : List (String × IntegrationEndpoint)
  webhooks : Option WebhookSettings := Option.none
  deriving Repr, DecidableEq

/-- The manager's `Record<string, IntegrationConfig>` catalog. -/
abbrev IntegrationsConfig := List (String × IntegrationConfig)

namespace IntegrationManager

/-- `IntegrationManager.getIntegration`. -/
def getIntegration (im : IntegrationsConfig) (name : String) :
    Option IntegrationConfig :=
  im.lookup name

/-- `IntegrationManager.isEnabled`: `integration?.enabled || false`. -/
def isEnabled (im : IntegrationsConfig) (name : String) : Bool :=
  match getIntegration im name with
  | Option.none => false
  | Option.some c => c.enabled

/-- `IntegrationManager.getEndpoint`: `integration?.endpoints[endpointName]`. -/
def getEndpoint (im : IntegrationsConfig) (integrationName endpointName : String) :
    Option IntegrationEndpoint :=
  match getIntegration im integrationName with
  | Option.none => Option.none
  | Option.some c => c.endpoints.lookup endpointName

/-- `IntegrationManager.getAuthHeaders`: start from a copy of the static
headers, then branch on the auth kind. Base64 of `user:pass` is the `b64`
parameter. Follows the source exactly: `bearer` and `basic` assign
`headers['Authorization']` unconditionally when their credentials are
truthy, while `api_key` assigns only when `!headers['X-API-Key']`. -/
def getAuthHeaders (b64 : String → String) (im : IntegrationsConfig)
    (integrationName : String) : Headers :=
  match getIntegration im integrationName with
  | Option.none => []
  | Option.some integration =>
    let headers := integration.auth.headers.getD []
    match integration.auth.type with
    | AuthKind.bearer =>
      match integration.auth.credentials.bind (fun c => c.token) with
      | Option.some t =>
        if t == "" then headers
        else setHeader headers "Authorization" ("Bearer " ++ t)
      | Option.none => headers
    | AuthKind.basic =>
      match integration.auth.credentials.bind (fun c => c.username),
            integration.auth.credentials.bind (fun c => c.password) with
      | Option.some u, Option.some p =>
        if u == "" || p == "" then headers
        else setHeader headers "Authorization"
          ("Basic " ++ b64 (u ++ ":" ++ p))
      | _, _ => headers
    | AuthKind.api_key =>
      match integration.auth.credentials.bind (fun c => c.apiKey) with
      | Option.some k =>
        if k == "" then headers
        else if strTruthy (getHeader headers "X-API-Key") then headers
        else setHeader headers "X-API-Key" k
      | Option.none => headers
    | _ => headers

/-- Node's `crypto.timingSafeEqual` on string buffers: throws (`none`)
when the lengths differ, otherwise reports byte equality. -/
def timingSafeEqual (a b : String) : Option Bool :=
  if a.length == b.length then Option.some (a == b) else Option.none

/-- `IntegrationManager.validateWebhookSignature`: false when no truthy
secret is configured; otherwise compare the provided signature with the
hex HMAC-SHA256 (`hmac secret payload`) of the payload using
`timingSafeEqual`, whose length-mismatch throw propagates (`none`). -/
def validateWebhookSignature (hmac : String → String → String)
    (im : IntegrationsConfig) (integrationName payload signature : String) :
    Option Bool :=
  let secret := (getIntegration im integrationName).bind
    (fun c => c.webhooks.bind (fun w => w.secret))
  match secret with
  | Option.none => Option.some false
  | Option.some s =>
    if s == "" then Option.some false
    else timingSafeEqual signature (hmac s payload)

end IntegrationManager

/-! ## Webhook controller (src/controllers — WebhookController) -/

namespace WebhookController

/-- Response classes produced by the two webhook routes. -/
inductive Outcome where
  | integrationNotFound
  | webhooksDisabled
  | eventNotAllowed
  | invalidSignature
  | processingError
  | success
  deriving Repr, DecidableEq

/-- `WebhookController.validateSignature`: HMAC comparison with the throw
of `timingSafeEqual` caught and turned into `false`. -/
def validateSignature (hmac : String → String → String)
    (payload signature secret : String) : Bool :=
  match IntegrationManager.timingSafeEqual signature (hmac secret payload) with
  | Option.some b => b
  | Option.none => false

/-- `WebhookController.receive` (`POST /webhooks/:integration`): 404 for an
unknown or disabled integration, 400 when the webhook descriptor is
missing or disabled, then signature verification only when both a truthy
secret is configured and a truthy signature header arrived, then the 200
success envelope. `payload` is `JSON.stringify(req.body)` and `signature`
the optional `x-webhook-signature` header. -/
def receive (hmac : String → String → String) (im : IntegrationsConfig)
    (integration payload : String) (signature : Option String) : Outcome :=
  if !(IntegrationManager.isEnabled im integration) then
    Outcome.integrationNotFound
  else
    let config := IntegrationManager.getIntegration im integration
    if !((config.bind (fun c => c.webhooks)).map (fun w => w.enabled)).getD false then
      Outcome.webhooksDisabled
    else
      let secret := (config.bind (fun c => c.webhooks)).bind (fun w => w.secret)
      if strTruthy secret && strTruthy signature then
        if validateSignature hmac payload (signature.getD "") (secret.getD "") then
          Outcome.success
        else Outcome.invalidSignature
      else Outcome.success

/-- `WebhookController.receiveEvent` (`POST /webhooks/:integration/:event`):
404 for an unknown or disabled integration, 400 when a declared event
allow-list excludes the event, then the same conditional signature
verification, then the 200 success envelope. There is no
webhooks-disabled check on this route. -/
def receiveEvent (hmac : String → String → String) (im : IntegrationsConfig)
    (integration event payload : String) (signature : Option String) : Outcome :=
  if !(IntegrationManager.isEnabled im integration) then
    Outcome.integrationNotFound
  else
    let config := IntegrationManager.getIntegration im integration
    match (config.bind (fun c => c.webhooks)).bind (fun w => w.events) with
    | Option.some events =>
      if !(events.contains event) then Outcome.eventNotAllowed
      else
        let secret := (config.bind (fun c => c.webhooks)).bind (fun w => w.secret)
        if strTruthy secret && strTruthy signature then
          if validateSignature hmac payload (signature.getD "") (secret.getD "") then
            Outcome.success
          else Outcome.invalidSignature
        else Outcome.success
    | Option.none =>
      let secret := (config.bind (fun c => c.webhooks)).bind (fun w => w.secret)
      if strTruthy secret && strTruthy signature then
        if validateSignature hmac payload (signature.getD "") (secret.getD "") then
          Outcome.success
        else Outcome.invalidSignature
      else Outcome.success

end WebhookController

/-! ## Transformers (src/transformers) and the proxy dispatcher -/

/-- One registered transformer: `validate` may throw with a message
(`Except.error`) or return a boolean; `transform` produces the forwarded
payload. Payloads live in an arbitrary type `α`. -/
structure Transformer (α : Type) where
  validate : α → Except String Bool
  transform : α → α

namespace Transformer

/-- `BaseTransformer.execute`: run the validator — a thrown message
propagates, a `false` result becomes the fixed validation-failure error —
then run the transformation. -/
def execute {α : Type} (t : Transformer α) (input : α) : Except String α :=
  match t.validate input with
  | Except.error msg => Except.error msg
  | Except.ok false => Except.error "Input validation failed"
  | Except.ok true => Except.ok (t.transform input)

end Transformer

/-- The registry's name-keyed transformer catalog. -/
abbrev TransformerCatalog (α : Type) := List (String × Transformer α)

namespace TransformerRegistry

/-- The error message `registry.transform` throws for an unknown name. -/
def notFoundMsg (name : String) : String :=
  "Transformer \"" ++ name ++ "\" not found"

/-- `TransformerRegistry.transform`: throw for an unregistered name,
otherwise run the transformer's `execute`. -/
def transform {α : Type} (reg : TransformerCatalog α) (name : String)
    (input : α) : Except String α :=
  match reg.lookup name with
  | Option.none => Except.error (notFoundMsg name)
  | Option.some t => Transformer.execute t input

end TransformerRegistry

namespace ProxyController

/-- The observable outcome of `ProxyController.forward` up to the point
where control leaves the dispatcher: the three local failure responses, or
the outbound HTTP call handed to the `HttpClient` with the (possibly
transformed) body. `httpCall` is the only constructor that represents
network I/O. -/
inductive Outcome (α : Type) where
  | integrationNotFound
  | endpointNotFound
  | transformationError (details : String)
  | httpCall (endpointName : String) (body : Option α)
  deriving Repr, DecidableEq

/-- `ProxyController.forward`: enabled-integration check (404), endpoint
resolution (404), then — only when the endpoint declares a truthy
transformer name and the request body is truthy (`none` models an absent
or falsy body) — the transformation, whose thrown message becomes the 400
`transformation_error` response; otherwise the request is dispatched to
the upstream via the HTTP client. -/
def forward {α : Type} (im : IntegrationsConfig) (reg : TransformerCatalog α)
    (integration endpoint : String) (body : Option α) : Outcome α :=
  if !(IntegrationManager.isEnabled im integration) then
    Outcome.integrationNotFound
  else
    match IntegrationManager.getEndpoint im integration endpoint with
    | Option.none => Outcome.endpointNotFound
    | Option.some endpointConfig =>
      match endpointConfig.transformer, body with
      | Option.some tname, Option.some b =>
        if tname == "" then Outcome.httpCall endpoint body
        else
          match TransformerRegistry.transform reg tname b with
          | Except.error msg => Outcome.transformationError msg
          | Except.ok b' => Outcome.httpCall endpoint (Option.some b')
      | _, _ => Outcome.httpCall endpoint body

end ProxyController

/-! ## Concrete fixtures used by witnesses and counterexamples -/

/-- An active client row. -/
def fixClient : OAuthClient :=
  { id := 1, client_id := "acme", client_secret_hash := "hash1", is_active := 1 }

/-- An inactive client row. -/
def fixInactiveClient : OAuthClient :=
  { id := 2, client_id := "sleepy", client_secret_hash := "hash2", is_active := 0 }

/-- A live session owned by `fixClient`. -/
def fixSession : OAuthSession :=
  { id := 1, client_id := 1, access_token := "at0", refresh_token := "rt0",
    token_type := "Bearer", expires_at := 1000000, refresh_expires_at := 1000000000,
    is_revoked := 0 }

/-- A small store with one active client, one inactive client, one live
session. -/
def fixDB : DB :=
  { clients := [fixClient, fixInactiveClient], sessions := [fixSession],
    nextSessionId := 2 }

/-- An enabled integration whose webhook descriptor exists but is
disabled (the shape of the `pms_system` entry of the default catalog). -/
def fixPmsConfig : IntegrationConfig :=
  { name := "PMS System", enabled := true, baseUrl := "https://pms.example",
    auth := { type := AuthKind.bearer }, endpoints := [],
    webhooks := Option.some { enabled := false } }

/-- An enabled integration with webhooks enabled and a configured secret,
plus one endpoint that declares the transformer `"T"`. -/
def fixBookingConfig : IntegrationConfig :=
  { name := "Booking Engine", enabled := true, baseUrl := "https://be.example",
    auth := { type := AuthKind.api_key },
    endpoints := [("createReservation",
      { path := "/v1/reservations", method := Option.some "POST",
        transformer := Option.some "T" })],
    webhooks := Option.some
      { enabled := true, secret := Option.some "k",
        events := Option.some ["reservation.created"] } }

/-- A bearer integration carrying a static `Authorization` header next to
a configured bearer token. -/
def fixBearerConfig : IntegrationConfig :=
  { name := "Bearer Static", enabled := true, baseUrl := "https://bs.example",
    auth :=
      { type := AuthKind.bearer,
        credentials := Option.some { token := Option.some "tkn" },
        headers := Option.some [("Authorization", "custom")] },
    endpoints := [] }

/-- An enabled integration with no webhook descriptor at all. -/
def fixNoWebhookConfig : IntegrationConfig :=
  { name := "No Hooks", enabled := true, baseUrl := "https://nh.example",
    auth := { type := AuthKind.none }, endpoints := [] }

/-- The fixture catalog. -/
def fixIM : IntegrationsConfig :=
  [("pms_system", fixPmsConfig), ("booking_engine", fixBookingConfig),
   ("bearer_static", fixBearerConfig), ("no_hooks", fixNoWebhookConfig)]

/-- A registry entry whose validator throws a reservation-style message
for payloads below a threshold and accepts the rest. -/
def fixRejectingTransformer : Transformer Nat :=
  { validate := fun n =>
      if n < 10 then Except.error "Check-out date must be after check-in date"
      else Except.ok true
    transform := fun n => n + 1 }

/-- A live session row whose stored expiry instant is the concrete
validation instant used by `claim_C2_counterexample`. -/
def fixEdgeSession : OAuthSession :=
  { id := 1, client_id := 1, access_token := "tok", refresh_token := "r",
    token_type := "Bearer", expires_at := 100, refresh_expires_at := 200,
    is_revoked := 0 }

/-- A one-session store around `fixEdgeSession`. -/
def fixEdgeDB : DB :=
  { clients := [], sessions := [fixEdgeSession], nextSessionId := 2 }

/-- The store reached from `fixDB` after the witness's successful refresh
of `rt0` at instant `0`: the consumed session is revoked and the
replacement pair `("a1", "r1")` is persisted. -/
def fixDBAfterRefresh : DB :=
  { clients := [fixClient, fixInactiveClient],
    sessions :=
      [{ id := 1, client_id := 1, access_token := "at0",
         refresh_token := "rt0", token_type := "Bearer",
         expires_at := 1000000, refresh_expires_at := 1000000000,
         is_revoked := 1 },
       { id := 2, client_id := 1, access_token := "a1",
         refresh_token := "r1", token_type := "Bearer",
         expires_at := 3600000, refresh_expires_at := 86400000,
         is_revoked := 0 }],
    nextSessionId := 3 }

/-! ## Claim C7 — expiry sweep -/

/-- C7: `cleanupExpiredSessions` returns the exact number of session rows
whose stored access expiry is strictly in the past, keeps exactly the rows
whose expiry has not passed (regardless of the revoked flag, which the
predicate never consults), leaves the surviving rows unchanged and in
order (a sublist of the original), never touches the clients table, and
removed + surviving = original count. -/
theorem claim_C7 (db : DB) (now : Nat) :
    (AuthService.cleanupExpiredSessions db now).1 =
      (db.sessions.filter (fun s => s.expires_at < now)).length
    ∧ (∀ s : OAuthSession,
        s ∈ (AuthService.cleanupExpiredSessions db now).2.sessions ↔
          (s ∈ db.sessions ∧ now ≤ s.expires_at))
    ∧ (AuthService.cleanupExpiredSessions db now).2.sessions.Sublist db.sessions
    ∧ (AuthService.cleanupExpiredSessions db now).2.clients = db.clients
    ∧ (AuthService.cleanupExpiredSessions db now).1
        + (AuthService.cleanupExpiredSessions db now).2.sessions.length
        = db.sessions.length := by
  refine ⟨rfl, ?_, ?_, rfl, ?_⟩
  · intro s
    simp [AuthService.cleanupExpiredSessions, List.mem_filter, Nat.not_lt]
  · exact List.filter_sublist _
  · exact (List.length_eq_length_filter_add
      (l := db.sessions) (fun s => decide (s.expires_at < now))).symm

/-! ## Claim C10 — transformer skipped on an absent body -/

/-- C10: when the resolved endpoint declares a transformer but the request
body is absent or falsy, `forward` skips the transformer entirely — for
every registry, including one where the name is unregistered or the
validator rejects everything — and dispatches the upstream call with the
body unchanged. -/
theorem claim_C10 {α : Type} (im : IntegrationsConfig)
    (reg : TransformerCatalog α) (integration endpoint tname : String)
    (epc : IntegrationEndpoint)
    (h1 : IntegrationManager.isEnabled im integration = true)
    (h2 : IntegrationManager.getEndpoint im integration endpoint = Option.some epc)
    (h3 : epc.transformer = Option.some tname) :
    ProxyController.forward im reg integration endpoint (Option.none : Option α)
      = ProxyController.Outcome.httpCall endpoint Option.none := by
  simp [ProxyController.forward, h1, h2, h3]

/-- Witness for C10 on the fixture catalog: the endpoint declares
transformer `"T"`, the registry is empty, the body is absent, and the
request is still dispatched upstream unchanged. -/
theorem claim_C10_witness :
    ProxyController.forward fixIM ([] : TransformerCatalog Nat)
      "booking_engine" "createReservation" Option.none
      = ProxyController.Outcome.httpCall "createReservation" Option.none :=
  claim_C10 fixIM [] "booking_engine" "createReservation" "T"
    { path := "/v1/reservations", method := Option.some "POST",
      transformer := Option.some "T" }
    (by decide) (by decide) rfl

/-! ## Claim C4 — absent signature header is accepted silently -/

/-- C4: on the generic webhook route, for an enabled integration whose
webhook descriptor is enabled and has a configured (truthy) secret, a
request with no `X-Webhook-Signature` header skips signature verification
entirely — for every HMAC function and payload — and is answered with the
200 success envelope. -/
theorem claim_C4 (hmac : String → String → String) (im : IntegrationsConfig)
    (integration payload : String) (cfg : IntegrationConfig)
    (w : WebhookSettings) (s : String)
    (h1 : IntegrationManager.isEnabled im integration = true)
    (h2 : IntegrationManager.getIntegration im integration = Option.some cfg)
    (h3 : cfg.webhooks = Option.some w)
    (h4 : w.enabled = true)
    (h5 : w.secret = Option.some s)
    (h6 : s ≠ "") :
    WebhookController.receive hmac im integration payload Option.none
      = WebhookController.Outcome.success := by
  simp [WebhookController.receive, h1, h2, h3, h4, strTruthy]

/-- Witness for C4: the fixture booking integration has webhooks enabled
with secret `"k"`, and an unsigned webhook is accepted. -/
theorem claim_C4_witness :
    WebhookController.receive (fun _ _ => "") fixIM "booking_engine" "pay"
      Option.none = WebhookController.Outcome.success :=
  claim_C4 (fun _ _ => "") fixIM "booking_engine" "pay" fixBookingConfig
    { enabled := true, secret := Option.some "k",
      events := Option.some ["reservation.created"] }
    "k" (by decide) (by decide) rfl rfl rfl (by decide)

/-! ## Claim C5 — webhooks-disabled check exists only on the generic route -/

/-- Counterexample to C5: the fixture `pms_system` integration is enabled
and its webhook descriptor has `enabled := false`, yet the event-scoped
route `POST /webhooks/:integration/:event` answers with the 200 success
envelope instead of the claimed `webhooks_disabled` failure. -/
theorem claim_C5_counterexample :
    WebhookController.receiveEvent (fun _ _ => "") fixIM "pms_system"
        "room.updated" "pay" Option.none = WebhookController.Outcome.success
    ∧ WebhookController.receiveEvent (fun _ _ => "") fixIM "pms_system"
        "room.updated" "pay" Option.none
        ≠ WebhookController.Outcome.webhooksDisabled := by
  exact ⟨rfl, by decide⟩

/-- C5 amended: only the generic route `POST /webhooks/:integration`
rejects a missing or disabled webhook descriptor with `webhooks_disabled`
(HTTP 400), and it does so before any signature check (the outcome is the
same for every HMAC function and every signature header); the event-scoped
route performs no such check. -/
theorem claim_C5_amended (hmac : String → String → String)
    (im : IntegrationsConfig) (integration payload : String)
    (signature : Option String) (cfg : IntegrationConfig)
    (h1 : IntegrationManager.isEnabled im integration = true)
    (h2 : IntegrationManager.getIntegration im integration = Option.some cfg)
    (h3 : (cfg.webhooks.map (fun w => w.enabled)).getD false = false) :
    WebhookController.receive hmac im integration payload signature
      = WebhookController.Outcome.webhooksDisabled := by
  simp only [WebhookController.receive, h1, h2, Bool.not_true, Bool.false_eq_true,
    if_false, Option.some_bind]
  rw [h3]
  simp

/-- Witness for the amended C5: the generic route does reject the
`pms_system` fixture, whose descriptor is disabled, whatever signature
header is presented. -/
theorem claim_C5_witness :
    WebhookController.receive (fun _ _ => "") fixIM "pms_system" "pay"
      (Option.some "sig") = WebhookController.Outcome.webhooksDisabled :=
  claim_C5_amended (fun _ _ => "") fixIM "pms_system" "pay"
    (Option.some "sig") fixPmsConfig (by decide) rfl (by decide)

/-! ## Claim C9 — credential-probing resistance -/

/-- C9: `authenticateClient` returns the same `none` failure for an
unknown client identifier, for an identifier whose rows are all inactive,
and for a correct identifier with a secret the verifier rejects — the
three failures are externally indistinguishable; and for any presented
token and any store, `POST /auth/revoke` answers 200 with the identical
message whether or not the token matches an existing session. -/
theorem claim_C9 (verify : String → String → Bool) (db : DB)
    (clientId secret : String) :
    ((∀ c ∈ db.clients, c.client_id ≠ clientId) →
        AuthService.authenticateClient verify db clientId secret = Option.none)
    ∧ ((∀ c ∈ db.clients, c.client_id = clientId → c.is_active ≠ 1) →
        AuthService.authenticateClient verify db clientId secret = Option.none)
    ∧ (∀ c, AuthService.findActiveClient db clientId = Option.some c →
        verify secret c.client_secret_hash = false →
        AuthService.authenticateClient verify db clientId secret = Option.none)
    ∧ (∀ (jwtOk : String → Bool) (now : Nat) (token : String), token ≠ "" →
        (AuthController.revoke jwtOk db now token).status = 200
        ∧ (AuthController.revoke jwtOk db now token).message
            = "Token revoked successfully") := by
  refine ⟨?_, ?_, ?_, ?_⟩
  · intro h
    have hfind : AuthService.findActiveClient db clientId = Option.none := by
      apply List.find?_eq_none.2
      intro c hc
      simp only [Bool.and_eq_true, beq_iff_eq, not_and]
      intro hcid
      exact absurd hcid (h c hc)
    simp [AuthService.authenticateClient, hfind]
  · intro h
    have hfind : AuthService.findActiveClient db clientId = Option.none := by
      apply List.find?_eq_none.2
      intro c hc
      simp only [Bool.and_eq_true, beq_iff_eq, not_and]
      intro hcid
      exact h c hc hcid
    simp [AuthService.authenticateClient, hfind]
  · intro c hfind hverify
    simp [AuthService.authenticateClient, hfind, hverify]
  · intro jwtOk now token htok
    unfold AuthController.revoke
    rw [if_neg (by simpa using htok)]
    cases AuthService.validateAccessToken jwtOk db now token <;> exact ⟨rfl, rfl⟩

/-- Witness for C9 on the fixture store: an unknown identifier, the
inactive `sleepy` client, and the active `acme` client with a rejected
secret all yield the same `none`; and revoking an unknown token still
answers 200 with the standard message. -/
theorem claim_C9_witness :
    AuthService.authenticateClient (fun _ _ => true) fixDB "ghost" "x"
        = Option.none
    ∧ AuthService.authenticateClient (fun _ _ => true) fixDB "sleepy" "x"
        = Option.none
    ∧ AuthService.authenticateClient (fun _ _ => false) fixDB "acme" "wrong"
        = Option.none
    ∧ (AuthController.revoke (fun _ => true) fixDB 0 "nosuch").status = 200
    ∧ (AuthController.revoke (fun _ => true) fixDB 0 "nosuch").message
        = "Token revoked successfully" := by
  refine ⟨?_, ?_, ?_, ?_, ?_⟩
  · exact (claim_C9 (fun _ _ => true) fixDB "ghost" "x").1 (by decide)
  · exact (claim_C9 (fun _ _ => true) fixDB "sleepy" "x").2.1 (by decide)
  · exact (claim_C9 (fun _ _ => false) fixDB "acme" "wrong").2.2.1 fixClient
      (by decide) rfl
  · exact (((claim_C9 (fun _ _ => true) fixDB "acme" "x").2.2.2
      (fun _ => true) 0 "nosuch") (by decide)).1
  · exact (((claim_C9 (fun _ _ => true) fixDB "acme" "x").2.2.2
      (fun _ => true) 0 "nosuch") (by decide)).2

/-! ## Claim C8 — transformation errors abort before network I/O -/

/-- Counterexample to C8 as stated: the fixture endpoint declares the
transformer `"T"`, the registry is empty (so `"T"` is unregistered), yet
with an absent request body `forward` performs the outbound HTTP call
instead of returning a `transformation_error`. -/
theorem claim_C8_counterexample :
    (IntegrationManager.getEndpoint fixIM "booking_engine"
        "createReservation").map (fun e => e.transformer)
      = Option.some (Option.some "T")
    ∧ ([] : TransformerCatalog Nat).lookup "T" = Option.none
    ∧ ProxyController.forward fixIM ([] : TransformerCatalog Nat)
        "booking_engine" "createReservation" Option.none
      = ProxyController.Outcome.httpCall "createReservation" Option.none
    ∧ ProxyController.forward fixIM ([] : TransformerCatalog Nat)
        "booking_engine" "createReservation" Option.none
      ≠ ProxyController.Outcome.transformationError
          (TransformerRegistry.notFoundMsg "T") := by
  refine ⟨rfl, rfl, rfl, by decide⟩

/-- C8 amended: for a forwarded call whose resolved endpoint declares a
(truthy) transformer and whose request body is present, an unregistered
transformer name or a rejecting validator makes `forward` return the 400
`transformation_error` carrying the underlying message — the not-found
message, the validator's thrown message, or the fixed validation-failure
message — and the outcome is never the `httpCall` constructor, so no
`HttpClient` is created and no outbound call is made. -/
theorem claim_C8_amended {α : Type} (im : IntegrationsConfig)
    (reg : TransformerCatalog α) (integration endpoint tname : String)
    (epc : IntegrationEndpoint) (b : α)
    (h1 : IntegrationManager.isEnabled im integration = true)
    (h2 : IntegrationManager.getEndpoint im integration endpoint = Option.some epc)
    (h3 : epc.transformer = Option.some tname)
    (h4 : tname ≠ "") :
    (reg.lookup tname = Option.none →
        ProxyController.forward im reg integration endpoint (Option.some b)
          = ProxyController.Outcome.transformationError
              (TransformerRegistry.notFoundMsg tname))
    ∧ (∀ t msg, reg.lookup tname = Option.some t →
        t.validate b = Except.error msg →
        ProxyController.forward im reg integration endpoint (Option.some b)
          = ProxyController.Outcome.transformationError msg)
    ∧ (∀ t, reg.lookup tname = Option.some t →
        t.validate b = Except.ok false →
        ProxyController.forward im reg integration endpoint (Option.some b)
          = ProxyController.Outcome.transformationError
              "Input validation failed") := by
  refine ⟨?_, ?_, ?_⟩
  · intro hlook
    simp [ProxyController.forward, h1, h2, h3, h4,
      TransformerRegistry.transform, hlook]
  · intro t msg hlook hval
    simp [ProxyController.forward, h1, h2, h3, h4,
      TransformerRegistry.transform, hlook, Transformer.execute, hval]
  · intro t hlook hval
    simp [ProxyController.forward, h1, h2, h3, h4,
      TransformerRegistry.transform, hlook, Transformer.execute, hval]

/-- Witness for the amended C8: with a present body, an unregistered name
surfaces the not-found message, and a rejecting validator surfaces its own
message; neither outcome is an HTTP call. -/
theorem claim_C8_witness :
    ProxyController.forward fixIM ([] : TransformerCatalog Nat)
        "booking_engine" "createReservation" (Option.some 3)
      = ProxyController.Outcome.transformationError
          (TransformerRegistry.notFoundMsg "T")
    ∧ ProxyController.forward fixIM [("T", fixRejectingTransformer)]
        "booking_engine" "createReservation" (Option.some 3)
      = ProxyController.Outcome.transformationError
          "Check-out date must be after check-in date" := by
  constructor
  · exact (claim_C8_amended fixIM [] "booking_engine" "createReservation" "T"
      { path := "/v1/reservations", method := Option.some "POST",
        transformer := Option.some "T" } 3
      (by decide) (by decide) rfl (by decide)).1 rfl
  · exact (claim_C8_amended fixIM [("T", fixRejectingTransformer)]
      "booking_engine" "createReservation" "T"
      { path := "/v1/reservations", method := Option.some "POST",
        transformer := Option.some "T" } 3
      (by decide) (by decide) rfl (by decide)).2.1 fixRejectingTransformer
      "Check-out date must be after check-in date" rfl rfl

/-! ## Claim C6 — auth-header synthesis and static-header precedence -/

/-- Overwriting the binding of one key leaves the lookup of any other key
unchanged. -/
theorem lookup_map_setKey (hs : Headers) (k v k' : String)
    (h : (k' == k) = false) :
    (hs.map (fun p => if p.1 == k then (k, v) else p)).lookup k'
      = hs.lookup k' := by
  induction hs with
  | nil => rfl
  | cons a l ih =>
    obtain ⟨a1, a2⟩ := a
    simp only [List.map_cons]
    by_cases ha : (a1 == k) = true
    · rw [if_pos ha]
      have ha' : a1 = k := by simpa using ha
      have hk1 : (k' == a1) = false := by rw [ha']; exact h
      simp only [List.lookup, h, hk1]
      exact ih
    · rw [if_neg ha]
      by_cases hk : (k' == a1) = true
      · simp only [List.lookup, hk]
      · have hk2 : (k' == a1) = false := by simpa using hk
        simp only [List.lookup, hk2]
        exact ih

/-- Appending a binding for one key leaves the lookup of any other key
unchanged. -/
theorem lookup_append_single (hs : Headers) (k v k' : String)
    (h : (k' == k) = false) :
    (hs ++ [(k, v)]).lookup k' = hs.lookup k' := by
  induction hs with
  | nil => simp [List.lookup, h]
  | cons a l ih =>
    obtain ⟨a1, a2⟩ := a
    by_cases hk : k' == a1 <;> simp [List.lookup, hk, ih]

/-- JS assignment `obj[k] = v` never changes the value read at another
key. -/
theorem getHeader_setHeader_ne (hs : Headers) (k v k' : String)
    (h : k' ≠ k) :
    getHeader (setHeader hs k v) k' = getHeader hs k' := by
  have hbeq : (k' == k) = false := by simpa using h
  unfold getHeader setHeader
  by_cases hany : hs.any (fun p => p.1 == k)
  · rw [if_pos hany]
    exact lookup_map_setKey hs k v k' hbeq
  · rw [if_neg hany]
    exact lookup_append_single hs k v k' hbeq

/-- Counterexample to C6 as stated: the `bearer_static` fixture declares a
static `Authorization: custom` header together with a bearer token, and
`getAuthHeaders` overwrites the static header with the synthesized
`Authorization: Bearer tkn`. -/
theorem claim_C6_counterexample :
    IntegrationManager.getAuthHeaders (fun s => s) fixIM "bearer_static"
        = [("Authorization", "Bearer tkn")]
    ∧ getHeader (fixBearerConfig.auth.headers.getD []) "Authorization"
        = Option.some "custom"
    ∧ getHeader (IntegrationManager.getAuthHeaders (fun s => s) fixIM
        "bearer_static") "Authorization" ≠ Option.some "custom" := by
  refine ⟨rfl, rfl, by decide⟩

/-- C6 amended: `getAuthHeaders` starts from the statically configured
headers; `none` and `oauth2` contribute only those; a truthy bearer token
or a truthy basic user/password pair assigns the synthesized
`Authorization` header, overwriting any static one; a truthy `api_key`
credential fills `X-API-Key` only when no truthy static `X-API-Key` is
already present; and a static header under any other key is never
changed by the synthesis. -/
theorem claim_C6_amended (b64 : String → String) (im : IntegrationsConfig)
    (n : String) (cfg : IntegrationConfig)
    (h : IntegrationManager.getIntegration im n = Option.some cfg) :
    ((cfg.auth.type = AuthKind.none ∨ cfg.auth.type = AuthKind.oauth2) →
        IntegrationManager.getAuthHeaders b64 im n = cfg.auth.headers.getD [])
    ∧ (∀ t, cfg.auth.type = AuthKind.bearer →
        cfg.auth.credentials.bind (fun c => c.token) = Option.some t →
        t ≠ "" →
        IntegrationManager.getAuthHeaders b64 im n
          = setHeader (cfg.auth.headers.getD []) "Authorization"
              ("Bearer " ++ t))
    ∧ (∀ u p, cfg.auth.type = AuthKind.basic →
        cfg.auth.credentials.bind (fun c => c.username) = Option.some u →
        cfg.auth.credentials.bind (fun c => c.password) = Option.some p →
        u ≠ "" → p ≠ "" →
        IntegrationManager.getAuthHeaders b64 im n
          = setHeader (cfg.auth.headers.getD []) "Authorization"
              ("Basic " ++ b64 (u ++ ":" ++ p)))
    ∧ (∀ k, cfg.auth.type = AuthKind.api_key →
        cfg.auth.credentials.bind (fun c => c.apiKey) = Option.some k →
        k ≠ "" →
        (strTruthy (getHeader (cfg.auth.headers.getD []) "X-API-Key") = true →
            IntegrationManager.getAuthHeaders b64 im n
              = cfg.auth.headers.getD [])
        ∧ (strTruthy (getHeader (cfg.auth.headers.getD []) "X-API-Key") = false →
            IntegrationManager.getAuthHeaders b64 im n
              = setHeader (cfg.auth.headers.getD []) "X-API-Key" k))
    ∧ (∀ k', k' ≠ "Authorization" → k' ≠ "X-API-Key" →
        getHeader (IntegrationManager.getAuthHeaders b64 im n) k'
          = getHeader (cfg.auth.headers.getD []) k') := by
  refine ⟨?_, ?_, ?_, ?_, ?_⟩
  · rintro (htype | htype) <;> simp [IntegrationManager.getAuthHeaders, h, htype]
  · intro t htype htok hne
    have : (t == "") = false := by simpa using hne
    simp [IntegrationManager.getAuthHeaders, h, htype, htok, this]
  · intro u p htype hu hp hun hpn
    have hu' : (u == "") = false := by simpa using hun
    have hp' : (p == "") = false := by simpa using hpn
    simp [IntegrationManager.getAuthHeaders, h, htype, hu, hp, hu', hp']
  · intro k htype hk hkn
    have hk' : (k == "") = false := by simpa using hkn
    constructor <;> intro htr <;>
      simp [IntegrationManager.getAuthHeaders, h, htype, hk, hk', htr]
  · intro k' hA hX
    simp only [IntegrationManager.getAuthHeaders, h]
    repeat' split
    all_goals first
      | rfl
      | exact getHeader_setHeader_ne _ _ _ _ hA
      | exact getHeader_setHeader_ne _ _ _ _ hX

/-- Witness for the amended C6 on the `bearer_static` fixture: the
synthesized bearer header is the overwrite of the static map, and a
lookup under an unrelated key is unchanged. -/
theorem claim_C6_witness :
    IntegrationManager.getAuthHeaders (fun s => s) fixIM "bearer_static"
        = setHeader [("Authorization", "custom")] "Authorization"
            "Bearer tkn"
    ∧ getHeader (IntegrationManager.getAuthHeaders (fun s => s) fixIM
        "bearer_static") "X-Other"
        = getHeader [("Authorization", "custom")] "X-Other" := by
  constructor
  · exact (claim_C6_amended (fun s => s) fixIM "bearer_static"
      fixBearerConfig rfl).2.1 "tkn" rfl rfl (by decide)
  · exact (claim_C6_amended (fun s => s) fixIM "bearer_static"
      fixBearerConfig rfl).2.2.2.2 "X-Other" (by decide) (by decide)

/-! ## Claim C3 — webhook HMAC signature verification -/

/-- The constant-time comparison accepts a string against itself. -/
theorem timingSafeEqual_self (a : String) :
    IntegrationManager.timingSafeEqual a a = Option.some true := by
  simp [IntegrationManager.timingSafeEqual]

/-- The constant-time comparison rejects distinct strings of equal
length without throwing. -/
theorem timingSafeEqual_ne (a b : String) (hlen : a.length = b.length)
    (hne : a ≠ b) :
    IntegrationManager.timingSafeEqual a b = Option.some false := by
  simp [IntegrationManager.timingSafeEqual, hlen, beq_false_of_ne hne]

/-- C3: with the HMAC primitive abstracted as `hmac`, the manager's
webhook check behaves as claimed: without a truthy configured secret it
returns `false` without throwing; with a configured secret the exact hex
HMAC of the payload is accepted; a single-character mutation of the
accepted signature is rejected (without throwing, since the length is
preserved); and presenting the original signature for a mutated payload is
rejected whenever the HMAC digests differ (digest length being fixed,
which is the `hlen` hypothesis standing in for SHA-256's 64-hex-character
output). -/
theorem claim_C3 (hmac : String → String → String) (im : IntegrationsConfig)
    (n payload sig : String) (cfg : IntegrationConfig)
    (h : IntegrationManager.getIntegration im n = Option.some cfg) :
    (strTruthy (cfg.webhooks.bind (fun w => w.secret)) = false →
        IntegrationManager.validateWebhookSignature hmac im n payload sig
          = Option.some false)
    ∧ (∀ s, cfg.webhooks.bind (fun w => w.secret) = Option.some s → s ≠ "" →
        (sig = hmac s payload →
            IntegrationManager.validateWebhookSignature hmac im n payload sig
              = Option.some true)
        ∧ (∀ (i : Nat) (c : Char) (hi : i < sig.toList.length),
            sig = hmac s payload →
            c ≠ sig.toList.get ⟨i, hi⟩ →
            IntegrationManager.validateWebhookSignature hmac im n payload
              (String.mk (sig.toList.set i c)) = Option.some false)
        ∧ (∀ payload' : String,
            sig = hmac s payload' → payload' ≠ payload →
            hmac s payload ≠ hmac s payload' →
            (hmac s payload).length = (hmac s payload').length →
            IntegrationManager.validateWebhookSignature hmac im n payload sig
              = Option.some false)) := by
  constructor
  · intro htr
    unfold IntegrationManager.validateWebhookSignature
    rw [h, Option.some_bind]
    cases hsec : cfg.webhooks.bind (fun w => w.secret) with
    | none => rfl
    | some s =>
      rw [hsec] at htr
      have hseq : s = "" := by simpa [strTruthy] using htr
      simp [hseq]
  · intro s hsec hs
    have hs' : (s == "") = false := beq_false_of_ne hs
    refine ⟨?_, ?_, ?_⟩
    · intro hsig
      unfold IntegrationManager.validateWebhookSignature
      rw [h, Option.some_bind, hsec]
      simp only [hs', Bool.false_eq_true, if_false]
      rw [hsig]
      exact timingSafeEqual_self _
    · intro i c hi hsig hc
      unfold IntegrationManager.validateWebhookSignature
      rw [h, Option.some_bind, hsec]
      simp only [hs', Bool.false_eq_true, if_false]
      have hlen : (String.mk (sig.toList.set i c)).length
          = (hmac s payload).length := by
        rw [← hsig]
        show (sig.toList.set i c).length = sig.length
        exact List.length_set _ _ _
      have hne : String.mk (sig.toList.set i c) ≠ hmac s payload := by
        rw [← hsig]
        intro heq
        have hdata : sig.toList.set i c = sig.toList :=
          congrArg String.data heq
        have hget : (sig.toList.set i c)[i]? = sig.toList[i]? := by
          rw [hdata]
        rw [List.getElem?_set_self (by simpa using hi),
          List.getElem?_eq_getElem hi] at hget
        exact hc (by simpa [List.get_eq_getElem] using Option.some.inj hget)
      exact timingSafeEqual_ne _ _ hlen hne
    · intro payload' hsig hpp hdiff hlen
      unfold IntegrationManager.validateWebhookSignature
      rw [h, Option.some_bind, hsec]
      simp only [hs', Bool.false_eq_true, if_false]
      have hlen2 : sig.length = (hmac s payload).length := by
        rw [hsig, hlen]
      have hne : sig ≠ hmac s payload := by
        rw [hsig]
        exact fun heq => hdiff heq.symm
      exact timingSafeEqual_ne _ _ hlen2 hne

/-- Witness for C3 with the concrete keyed digest `fun s p => s ++ p`:
the correct signature `"kab"` of payload `"ab"` under secret `"k"` is
accepted; flipping its first character to `'x'` is rejected; presenting
it for the mutated payload `"ax"` is rejected; and the `no_hooks` fixture,
which has no webhook secret, rejects without throwing. -/
theorem claim_C3_witness :
    IntegrationManager.validateWebhookSignature (fun s p => s ++ p) fixIM
        "booking_engine" "ab" "kab" = Option.some true
    ∧ IntegrationManager.validateWebhookSignature (fun s p => s ++ p) fixIM
        "booking_engine" "ab" (String.mk ("kab".toList.set 0 'x'))
        = Option.some false
    ∧ IntegrationManager.validateWebhookSignature (fun s p => s ++ p) fixIM
        "booking_engine" "ax" "kab" = Option.some false
    ∧ IntegrationManager.validateWebhookSignature (fun s p => s ++ p) fixIM
        "no_hooks" "ab" "kab" = Option.some false := by
  have h1 := claim_C3 (fun s p => s ++ p) fixIM "booking_engine" "ab" "kab"
    fixBookingConfig rfl
  have h2 := h1.2 "k" rfl (by decide)
  refine ⟨h2.1 rfl, ?_, ?_, ?_⟩
  · exact h2.2.1 0 'x' (by decide) rfl (by decide)
  · have h3 := claim_C3 (fun s p => s ++ p) fixIM "booking_engine" "ax" "kab"
      fixBookingConfig rfl
    exact (h3.2 "k" rfl (by decide)).2.2 "ab" rfl (by decide) (by decide)
      (by decide)
  · have h4 := claim_C3 (fun s p => s ++ p) fixIM "no_hooks" "ab" "kab"
      fixNoWebhookConfig rfl
    exact h4.1 (by decide)

/-! ## Claim C2 — access-token validation -/

/-- Counterexample to C2 as stated: at the instant `now = 100` a session
whose stored expiry is exactly `100` still validates (the code rejects
only `expires_at < now`), yet no session with that token, unrevoked, has
its stored expiry strictly in the future — so validation success is not
equivalent to the claimed conjunction. -/
theorem claim_C2_counterexample :
    (AuthService.validateAccessToken (fun _ => true) fixEdgeDB 100
        "tok").isSome = true
    ∧ ¬ (∃ s ∈ fixEdgeDB.sessions,
          s.access_token = "tok" ∧ s.is_revoked = 0 ∧ 100 < s.expires_at) := by
  decide

/-- C2 amended: assuming stored access tokens are unique (the schema's
UNIQUE column), `validateAccessToken` returns a session exactly when the
embedded JWT check passes and an unrevoked session row carries the token
with a stored expiry that has not yet passed (`now ≤ expires_at` — the
boundary instant `now = expires_at` is still accepted); and a freshly
issued access token (new to the store, with a passing JWT check) validates
successfully, while after `revokeSession` on the session it returned the
same token validates to `null`. -/
theorem claim_C2_amended (jwtOk : String → Bool) (db : DB) (now : Nat)
    (tok : String)
    (hnodup : (db.sessions.map (fun s => s.access_token)).Nodup) :
    ((AuthService.validateAccessToken jwtOk db now tok).isSome = true ↔
      (jwtOk tok = true ∧ ∃ s ∈ db.sessions,
        s.access_token = tok ∧ s.is_revoked = 0 ∧ now ≤ s.expires_at))
    ∧ (∀ (verify : String → String → Bool) (cid sec a r : String)
        (resp : TokenResponse) (db1 : DB),
        (∀ s ∈ db.sessions, s.access_token ≠ a) →
        jwtOk a = true →
        AuthService.createTokenResponse verify db now cid sec a r
          = Option.some (resp, db1) →
        ∃ sess, AuthService.validateAccessToken jwtOk db1 now a
            = Option.some sess
          ∧ AuthService.validateAccessToken jwtOk
              (AuthService.revokeSession db1 sess.id) now a
            = Option.none) := by
  constructor
  · by_cases hjwt : jwtOk tok = true
    · cases hfind : AuthService.findAccessSession db tok with
      | none =>
        have hval : AuthService.validateAccessToken jwtOk db now tok
            = Option.none := by
          unfold AuthService.validateAccessToken
          rw [if_pos hjwt, hfind]
        rw [hval]
        constructor
        · intro h
          exact absurd h (by simp)
        · rintro ⟨-, s, hmem, hat, hrev, -⟩
          have := List.find?_eq_none.1 hfind s hmem
          simp [hat, hrev] at this
      | some s =>
        have hp := List.find?_some hfind
        simp only [Bool.and_eq_true, beq_iff_eq] at hp
        obtain ⟨hat, hrev⟩ := hp
        have hmem := List.mem_of_find?_eq_some hfind
        have hval : AuthService.validateAccessToken jwtOk db now tok
            = if s.expires_at < now then Option.none else Option.some s := by
          unfold AuthService.validateAccessToken
          rw [if_pos hjwt, hfind]
        by_cases hexp : s.expires_at < now
        · rw [hval, if_pos hexp]
          constructor
          · intro h
            exact absurd h (by simp)
          · rintro ⟨-, s', hmem', hat', hrev', hle'⟩
            have hss : s' = s := List.inj_on_of_nodup_map hnodup hmem' hmem
              (by rw [hat', hat])
            subst hss
            omega
        · rw [hval, if_neg hexp]
          simp only [Option.isSome_some, true_iff]
          exact ⟨hjwt, s, hmem, hat, hrev, Nat.not_lt.1 hexp⟩
    · have hval : AuthService.validateAccessToken jwtOk db now tok
          = Option.none := by
        unfold AuthService.validateAccessToken
        rw [if_neg hjwt]
      rw [hval]
      constructor
      · intro h
        exact absurd h (by simp)
      · rintro ⟨hj, -⟩
        exact absurd hj hjwt
  · intro verify cid sec a r resp db1 hnew hjwt hcreate
    unfold AuthService.createTokenResponse at hcreate
    cases hauth : AuthService.authenticateClient verify db cid sec with
    | none => rw [hauth] at hcreate; exact absurd hcreate (by simp)
    | some client =>
      rw [hauth] at hcreate
      simp only [AuthService.saveSession, Option.some.injEq,
        Prod.mk.injEq] at hcreate
      obtain ⟨-, hdb1⟩ := hcreate
      subst hdb1
      set newSess : OAuthSession :=
        { id := db.nextSessionId, client_id := client.id, access_token := a,
          refresh_token := r, token_type := "Bearer",
          expires_at := now + 3600 * 1000,
          refresh_expires_at := now + 3600 * 24 * 1000,
          is_revoked := 0 } with hnewSess
      have hfind1 : AuthService.findAccessSession
          { db with sessions := db.sessions ++ [newSess],
                    nextSessionId := db.nextSessionId + 1 } a
          = Option.some newSess := by
        unfold AuthService.findAccessSession
        rw [List.find?_append]
        have hnone : db.sessions.find?
            (fun s => s.access_token == a && s.is_revoked == 0)
            = Option.none := by
          apply List.find?_eq_none.2
          intro x hx
          simp only [Bool.and_eq_true, beq_iff_eq, not_and]
          intro hax
          exact absurd hax (hnew x hx)
        rw [hnone]
        simp
      refine ⟨newSess, ?_, ?_⟩
      · unfold AuthService.validateAccessToken
        rw [if_pos hjwt, hfind1]
        show (if newSess.expires_at < now then Option.none
              else Option.some newSess) = Option.some newSess
        exact if_neg (show ¬ (now + 3600 * 1000 < now) by omega)
      · unfold AuthService.validateAccessToken
        rw [if_pos hjwt]
        have hfind2 : AuthService.findAccessSession
            (AuthService.revokeSession
              { db with sessions := db.sessions ++ [newSess],
                        nextSessionId := db.nextSessionId + 1 } newSess.id) a
            = Option.none := by
          unfold AuthService.findAccessSession AuthService.revokeSession
          apply List.find?_eq_none.2
          intro x hx
          simp only [List.map_append, List.mem_append, List.mem_map] at hx
          rcases hx with ⟨y, hy, hyx⟩ | ⟨y, hy, hyx⟩
          · subst hyx
            by_cases hid : (y.id == newSess.id) = true
            · rw [if_pos hid]
              simp only [Bool.and_eq_true, beq_iff_eq, not_and]
              intro hax
              exact absurd hax (hnew y hy)
            · rw [if_neg hid]
              simp only [Bool.and_eq_true, beq_iff_eq, not_and]
              intro hax
              exact absurd hax (hnew y hy)
          · simp only [List.mem_singleton] at hy
            subst hy
            subst hyx
            simp
        rw [hfind2]

/-- Witness for the amended C2 on the fixture store at the stored expiry
instant: the equivalence holds for the live `at0` session. -/
theorem claim_C2_witness :
    (AuthService.validateAccessToken (fun _ => true) fixDB 1000000
        "at0").isSome = true ↔
      ((fun (_ : String) => true) "at0" = true ∧ ∃ s ∈ fixDB.sessions,
        s.access_token = "at0" ∧ s.is_revoked = 0 ∧ 1000000 ≤ s.expires_at) :=
  (claim_C2_amended (fun _ => true) fixDB 1000000 "at0" (by decide)).1

/-! ## Claim C1 — a refresh token is single-use -/

/-- C1: assuming the schema's uniqueness of stored refresh tokens and
freshness of the replacement refresh token (it differs from the consumed
one — both facts the `UNIQUE` column enforces), a successful
`refreshAccessToken` call revokes the owning session, so any later call
with the same refresh token — at any instant, with any fresh tokens —
returns `null` (`invalid_grant`). -/
theorem claim_C1 (db : DB) (now now2 : Nat) (rt a1 r1 a2 r2 : String)
    (resp : TokenResponse) (db' : DB)
    (hnodup : (db.sessions.map (fun s => s.refresh_token)).Nodup)
    (hfresh : r1 ≠ rt)
    (h1 : AuthService.refreshAccessToken db now rt a1 r1
      = Option.some (resp, db')) :
    AuthService.refreshAccessToken db' now2 rt a2 r2 = Option.none := by
  unfold AuthService.refreshAccessToken at h1
  cases hfind : AuthService.findRefreshSession db rt with
  | none => rw [hfind] at h1; exact absurd h1 (by simp)
  | some sess =>
    rw [hfind] at h1
    dsimp only at h1
    have hp := List.find?_some hfind
    simp only [Bool.and_eq_true, beq_iff_eq] at hp
    obtain ⟨hrt, -⟩ := hp
    have hmem := List.mem_of_find?_eq_some hfind
    by_cases hexp : sess.refresh_expires_at < now
    · rw [if_pos hexp] at h1; exact absurd h1 (by simp)
    · rw [if_neg hexp] at h1
      cases hcl : AuthService.findClientById db sess.client_id with
      | none => rw [hcl] at h1; exact absurd h1 (by simp)
      | some client =>
        rw [hcl] at h1
        dsimp only at h1
        by_cases hact : (client.is_active != 1) = true
        · rw [if_pos hact] at h1; exact absurd h1 (by simp)
        · rw [if_neg hact] at h1
          simp only [AuthService.saveSession, AuthService.revokeSession,
            Option.some.injEq, Prod.mk.injEq] at h1
          obtain ⟨-, hdb'⟩ := h1
          have hfind' : AuthService.findRefreshSession db' rt
              = Option.none := by
            rw [← hdb']
            unfold AuthService.findRefreshSession
            apply List.find?_eq_none.2
            intro x hx
            simp only [List.mem_append, List.mem_map,
              List.mem_singleton] at hx
            rcases hx with ⟨y, hy, hyx⟩ | hx
            · subst hyx
              by_cases hyrt : y.refresh_token = rt
              · have hys : y = sess := List.inj_on_of_nodup_map hnodup hy
                  hmem (by rw [hyrt, hrt])
                subst hys
                rw [if_pos (by simp)]
                simp
              · by_cases hid : (y.id == sess.id) = true
                · rw [if_pos hid]
                  simp only [Bool.and_eq_true, beq_iff_eq, not_and]
                  intro hax
                  exact absurd hax hyrt
                · rw [if_neg hid]
                  simp only [Bool.and_eq_true, beq_iff_eq, not_and]
                  intro hax
                  exact absurd hax hyrt
            · subst hx
              simp only [Bool.and_eq_true, beq_iff_eq, not_and]
              intro hax
              exact absurd hax hfresh
          unfold AuthService.refreshAccessToken
          rw [hfind']

/-- Witness for C1: the fixture store's refresh of `rt0` succeeds once,
and replaying `rt0` against the resulting store fails. -/
theorem claim_C1_witness :
    AuthService.refreshAccessToken fixDBAfterRefresh 5 "rt0" "a2" "r2"
      = Option.none :=
  claim_C1 fixDB 0 5 "rt0" "a1" "r1" "a2" "r2"
    { access_token := "a1", refresh_token := "r1", token_type := "Bearer",
      expires_in := 3600 }
    fixDBAfterRefresh (by decide) (by decide) (by decide)

end ApiMid
